import Mathlib

/-!
Shallow embedding of the handler lifecycle orchestration hierarchy of
`vitkuz/vitkuz-serverless-aurora-test`:

* `BaseHandler.execute` (src/functions/base-handler/index.ts): the template
  method that logs an invocation-start event, awaits `handleRequest`, logs a
  success event and returns the result on success, and on failure dispatches
  to `handleError` — with an Error-kind thrown value forwarded unchanged and
  a non-Error thrown value replaced by a synthesized generic `Error`.
* `CognitoBaseHandler.handleError` (cognito-base-handler.ts): logs one error
  diagnostic carrying the error and the original event, then rethrows the
  same error.
* `APIGatewayBaseHandler` (the HTTP specialization): binds a schema, and
  delegates `checkAccess` / `parseJSONBody` / `parseSchema` /
  `formatResponse` / `handleError` to mediators.

JavaScript effects are made explicit: an invocation of `execute` is modelled
as a pure function from the outcome of `handleRequest` (resolve, throw an
Error object, or throw a non-Error value) to a trace recording the log
entries emitted, the arguments passed to `handleError`, and the final
outcome (normal return or escalated throw).  Error-object identity is
modelled by an allocation id `eid` carried in `ErrObj`; the id of the
`Error` synthesized for a non-Error throw is supplied as the `freshId`
argument of `execute`.

The mediator implementations (`@utils/auth`, `@utils/mediators/*`,
`@utils/response`) are not part of the sources; where a claim depends on
them they are modelled from the spec and marked `Modelled from the spec:`.
-/

namespace Vitkuz

/-- A JavaScript value that is not an `Error` instance, as can be thrown by
`throw "boom"` and stored in a log payload. -/
inductive JSVal where
  | vstr (s : String)
  | vnum (n : Int)
  | vbool (b : Bool)
  | vnull
  | vundef
deriving DecidableEq, Repr

/-- The error taxonomy of the spec: ValidationError, ParseError,
AuthorizationError are the recognized subclasses; `plain` stands for a plain
`Error` (the synthesized UnknownError and any DomainError). -/
inductive ErrKind where
  | validation
  | parse
  | authorization
  | plain
deriving DecidableEq, Repr

/-- A JavaScript `Error` object.  `eid` models object identity (two
structurally equal errors with distinct `eid` are distinct objects). -/
structure ErrObj where
  eid : Nat
  kind : ErrKind
  message : String
deriving DecidableEq, Repr

/-- A thrown JavaScript value: either an `Error` instance (`instanceof Error`
succeeds) or any other value. -/
inductive Thrown where
  | errorVal (e : ErrObj)
  | nonError (v : JSVal)
deriving DecidableEq, Repr

/-- Logger levels used by the core: `logger.info` and `logger.error`. -/
inductive LogLevel where
  | info
  | lerror
deriving DecidableEq, Repr

/-- Structured metadata attached to a log call: nothing, the
`{ data: { error } }` bag of the orchestrator's unknown-error diagnostic, or
the `{ error, event }` bag of the Cognito handler (also used for the
classifier's diagnostic). -/
inductive LogPayload (TEvent : Type) where
  | noData
  | dataError (v : JSVal)
  | errorAndEvent (e : ErrObj) (ev : TEvent)
deriving DecidableEq, Repr

/-- One `logger.info` / `logger.error` call: level, message, metadata. -/
structure LogEntry (TEvent : Type) where
  level : LogLevel
  msg : String
  payload : LogPayload TEvent
deriving DecidableEq, Repr

/-- The outcome of one invocation of the abstract `handleRequest`: the
promise resolves with a result, or it rejects/throws some value. -/
inductive ReqOutcome (TResult : Type) where
  | success (r : TResult)
  | failure (t : Thrown)
deriving DecidableEq, Repr

/-- The outcome of `execute` (or of a `handleError` call): a normal return
with a result, or an escalated throw. -/
inductive HEOutcome (TResult : Type) where
  | returns (r : TResult)
  | throws (t : Thrown)
deriving DecidableEq, Repr

/-- The observable trace of one `execute()` invocation: the log entries in
order, the list of arguments `handleError` was invoked with (in order), and
the final outcome. -/
structure ExecTrace (TEvent TResult : Type) where
  logs : List (LogEntry TEvent)
  handleErrorCalls : List ErrObj
  outcome : HEOutcome TResult
deriving DecidableEq, Repr

/-- `this.context.logger.info('Execution started')`. -/
def startLog (TEvent : Type) : LogEntry TEvent :=
  ⟨LogLevel.info, "Execution started", LogPayload.noData⟩

/-- `this.context.logger.info('Request handled successfully')`. -/
def successLog (TEvent : Type) : LogEntry TEvent :=
  ⟨LogLevel.info, "Request handled successfully", LogPayload.noData⟩

/-- `this.context.logger.error('Unknown error occurred', { data: { error } })`. -/
def unknownErrorLog (TEvent : Type) (v : JSVal) : LogEntry TEvent :=
  ⟨LogLevel.lerror, "Unknown error occurred", LogPayload.dataError v⟩

/-- `new Error('Unknown error occurred')`, allocated with identity `freshId`. -/
def genericError (freshId : Nat) : ErrObj :=
  ⟨freshId, ErrKind.plain, "Unknown error occurred"⟩

/-- `BaseHandler.execute` (index.ts lines 14-32).  The subclass behaviour is
supplied as `ro` (what `handleRequest` did in this invocation) and `he` (the
`handleError` method: the log entries it emits and its outcome as a function
of the error it receives). -/
def execute {TEvent TResult : Type}
    (ro : ReqOutcome TResult)
    (he : ErrObj → List (LogEntry TEvent) × HEOutcome TResult)
    (freshId : Nat) : ExecTrace TEvent TResult :=
  match ro with
  | ReqOutcome.success r =>
      ⟨[startLog TEvent, successLog TEvent], [], HEOutcome.returns r⟩
  | ReqOutcome.failure (Thrown.errorVal e) =>
      let h := he e
      ⟨startLog TEvent :: h.1, [e], h.2⟩
  | ReqOutcome.failure (Thrown.nonError v) =>
      let g := genericError freshId
      let h := he g
      ⟨startLog TEvent :: unknownErrorLog TEvent v :: h.1, [g], h.2⟩

/-- `this.context.logger.error('Error occurred in Cognito handler',
{ error, event: this.event })` (cognito-base-handler.ts line 5). -/
def cognitoErrorLog {TEvent : Type} (e : ErrObj) (event : TEvent) : LogEntry TEvent :=
  ⟨LogLevel.lerror, "Error occurred in Cognito handler", LogPayload.errorAndEvent e event⟩

/-- `CognitoBaseHandler.handleError` (cognito-base-handler.ts lines 4-7):
log one error diagnostic with the error and the original event, then
`throw error` — the very same object. -/
def cognitoHandleError {TEvent : Type} (event : TEvent) (e : ErrObj) :
    List (LogEntry TEvent) × HEOutcome TEvent :=
  ([cognitoErrorLog e event], HEOutcome.throws (Thrown.errorVal e))

/-- `execute()` of a `CognitoBaseHandler` instance holding `event`. -/
def cognitoExecute {TEvent : Type} (event : TEvent) (ro : ReqOutcome TEvent)
    (freshId : Nat) : ExecTrace TEvent TEvent :=
  execute ro (cognitoHandleError event) freshId

/-- Number of `logger.error` entries in a log trace. -/
def errorLogCount {TEvent : Type} (logs : List (LogEntry TEvent)) : Nat :=
  (logs.filter (fun l => decide (l.level = LogLevel.lerror))).length

/-- Number of entries with a given level and message in a log trace. -/
def countLogMsg {TEvent : Type} (logs : List (LogEntry TEvent))
    (lv : LogLevel) (m : String) : Nat :=
  (logs.filter (fun l => decide (l.level = lv) && decide (l.msg = m))).length

/-- Number of invocation-start log entries. -/
def startLogCount {TEvent : Type} (logs : List (LogEntry TEvent)) : Nat :=
  countLogMsg logs LogLevel.info "Execution started"

/-- Number of invocation-success log entries. -/
def successLogCount {TEvent : Type} (logs : List (LogEntry TEvent)) : Nat :=
  countLogMsg logs LogLevel.info "Request handled successfully"

/-- Number of log entries whose payload is the `{ data: { error } }` bag
holding exactly the value `v`. -/
def valueMentionCount {TEvent : Type} (logs : List (LogEntry TEvent)) (v : JSVal) : Nat :=
  (logs.filter (fun l =>
    match l.payload with
    | LogPayload.dataError w => decide (w = v)
    | _ => false)).length

/-- HTTP request/response headers as an association list. -/
abbrev Headers := List (String × String)

/-- A parsed JSON body: the `Record<string, unknown>` produced by the JSON
body parser mediator. -/
abbrev RecordVal := List (String × JSVal)

/-- The platform's HTTP response representation (`APIGatewayProxyResult`):
status code, headers, serialized body. -/
structure APIGatewayProxyResult where
  statusCode : Nat
  headers : Headers
  body : String
deriving DecidableEq, Repr

/-- Modelled from the spec: the fixed generic server-error response that the
Error Classifier mediator degrades to on an unrecognized error kind.  Its
body is a constant: it carries no information from the classified error. -/
def genericServerErrorResponse : APIGatewayProxyResult :=
  ⟨500, [], "Internal server error"⟩

/-- Modelled from the spec: the Error Classifier mediator
(`handleError` of `@utils/mediators/error-handler`, absent from the
sources).  It inspects the error's kind and returns an appropriate response;
a recognized kind (ValidationError, ParseError, AuthorizationError) maps to
a client-error response — ValidationError with a non-empty body describing
the violation — and any unrecognized kind degrades to the fixed generic
server-error response.  It is total: it never throws. -/
def classifyError (e : ErrObj) : APIGatewayProxyResult :=
  match e.kind with
  | ErrKind.validation => ⟨400, [], "Validation failed: " ++ e.message⟩
  | ErrKind.parse => ⟨400, [], "Malformed JSON body"⟩
  | ErrKind.authorization => ⟨403, [], "Forbidden"⟩
  | ErrKind.plain => genericServerErrorResponse

/-- Modelled from the spec: the one error diagnostic the Error Classifier
mediator logs for the invocation (the spec's invariant demands exactly one
of {success log, error log} per invocation, and the orchestrator itself
emits no error log on the Error-kind path). -/
def classifierErrorLog {TEvent : Type} (e : ErrObj) (event : TEvent) : LogEntry TEvent :=
  ⟨LogLevel.lerror, "Error handled", LogPayload.errorAndEvent e event⟩

/-- `APIGatewayBaseHandler.handleError` (HTTP specialization, lines 42-44):
delegates to the Error Classifier mediator with (context, error, event).
The delegation is from the source; the mediator's behaviour
(`classifierErrorLog`, `classifyError`) is modelled from the spec.  It
always returns a response, never throws. -/
def apiGatewayHandleError {TEvent : Type} (event : TEvent) (e : ErrObj) :
    List (LogEntry TEvent) × HEOutcome APIGatewayProxyResult :=
  ([classifierErrorLog e event], HEOutcome.returns (classifyError e))

/-- `execute()` of an `APIGatewayBaseHandler` instance holding `event`. -/
def apiGatewayExecute {TEvent : Type} (event : TEvent)
    (ro : ReqOutcome APIGatewayProxyResult) (freshId : Nat) :
    ExecTrace TEvent APIGatewayProxyResult :=
  execute ro (apiGatewayHandleError event) freshId

/-- Success-log count the amended log-discipline invariant predicts for each
`handleRequest` outcome. -/
def expectedSuccessLogs {TResult : Type} : ReqOutcome TResult → Nat
  | ReqOutcome.success _ => 1
  | ReqOutcome.failure _ => 0

/-- Error-log count the amended log-discipline invariant predicts for each
`handleRequest` outcome: none on success, the specialization's one
diagnostic on an Error-kind throw, and on a non-Error throw the
orchestrator's diagnostic plus the specialization's — two. -/
def expectedErrorLogs {TResult : Type} : ReqOutcome TResult → Nat
  | ReqOutcome.success _ => 0
  | ReqOutcome.failure (Thrown.errorVal _) => 1
  | ReqOutcome.failure (Thrown.nonError _) => 2

/-- The platform's HTTP request representation (`APIGatewayProxyEvent`)
restricted to the fields the specialization reads: `body : string | null`,
`headers`, and the remaining fields collapsed into one opaque `rest`
component (the JS spread `{...this.event}` copies them unchanged). -/
structure APIGatewayProxyEvent where
  body : Option String
  headers : Headers
  rest : JSVal
deriving DecidableEq, Repr

/-- The derived view (`APIGatewayParsedEvent`): the event with the raw body
replaced by its parsed key-value form, all other fields as in the original
event. -/
structure APIGatewayParsedEvent where
  body : RecordVal
  headers : Headers
  rest : JSVal
deriving DecidableEq, Repr

/-- The body expression of `parseSchema` (part_000 line 29):
`this.event.body ? this.parseJSONBody(this.event.body, this.event.headers) : {}`.
A `string | null` body is truthy exactly when it is a non-empty string, so
`null` and `""` both take the `{}` branch without calling the parser; `pjb`
is the JSON Body Parser mediator, which may fail with a ParseError. -/
def bodyOrEmpty (pjb : String → Headers → Except ErrObj RecordVal)
    (body : Option String) (headers : Headers) : Except ErrObj RecordVal :=
  match body with
  | some s => if s = "" then Except.ok [] else pjb s headers
  | none => Except.ok []

/-- `APIGatewayBaseHandler.parseSchema` (part_000 lines 26-32): build the
derived view `{...this.event, body: ...}` and delegate to the Schema
Validator mediator (`zodParser`) with the instance's bound schema and that
view.  The mediators are parameters: `pjb` is the handler's
`parseJSONBody` delegate and `zodParser` the validator, which returns the
validated typed value or fails with a ValidationError. -/
def parseSchema {Schema T : Type}
    (pjb : String → Headers → Except ErrObj RecordVal)
    (zodParser : Schema → APIGatewayParsedEvent → Except ErrObj T)
    (schema : Schema) (event : APIGatewayProxyEvent) : Except ErrObj T :=
  Except.bind (bodyOrEmpty pjb event.body event.headers)
    (fun b => zodParser schema ⟨b, event.headers, event.rest⟩)

/-- Role tags used by the authorization check. -/
abbrev AuthRole := String

/-- Modelled from the spec: the Authorization mediator
(`checkAccess` of `@utils/auth`, absent from the sources), invoked with
(context, event, roles).  The actor's roles are the ones the event carries;
the check succeeds exactly when the actor holds at least one of the required
roles, and fails with an AuthorizationError otherwise — so an empty
requirement can never be satisfied. -/
def checkAccess (actorRoles : List AuthRole) (required : List AuthRole) :
    Except ErrObj Unit :=
  if required.any (fun r => actorRoles.contains r) then Except.ok ()
  else Except.error ⟨0, ErrKind.authorization, "Access denied"⟩

/-- The `{statusCode, body, headers}`-shaped input of `formatResponse`. -/
structure ResponseInput where
  statusCode : Nat
  body : String
  headers : Headers
deriving DecidableEq, Repr

/-- Modelled from the spec: the Response Formatter mediator
(`formatResponse` of `@utils/response`, absent from the sources): a pure,
deterministic mapping from the `{statusCode, body, headers}`-shaped input to
the platform's response representation. -/
def formatResponse (i : ResponseInput) : APIGatewayProxyResult :=
  ⟨i.statusCode, ("Content-Type", "application/json") :: i.headers, i.body⟩

/-- C1: For every invocation in which `handleRequest` resolves successfully,
`execute()` returns exactly the value `handleRequest` produced, never invokes
`handleError`, and emits exactly one success log, after the unconditional
start log. -/
theorem execute_success_returns_result_no_handleError :
    ∀ (TEvent TResult : Type)
      (he : ErrObj → List (LogEntry TEvent) × HEOutcome TResult)
      (r : TResult) (freshId : Nat),
      execute (ReqOutcome.success r) he freshId =
        ⟨[startLog TEvent, successLog TEvent], [], HEOutcome.returns r⟩ ∧
      (execute (ReqOutcome.success r) he freshId).handleErrorCalls = [] ∧
      successLogCount (execute (ReqOutcome.success r) he freshId).logs = 1 ∧
      errorLogCount (execute (ReqOutcome.success r) he freshId).logs = 0 := by
  intro TEvent TResult he r freshId
  refine ⟨rfl, rfl, ?_, ?_⟩ <;>
    simp [execute, successLogCount, countLogMsg, errorLogCount, startLog, successLog]

/-- C5: For every Error-kind failure of `handleRequest` in the identity-event
(Cognito) specialization, `handleError` logs one diagnostic containing both
the error and the original event and then re-raises the very same Error
instance, so `execute()` fails with that exact instance after exactly one
diagnostic log. -/
theorem cognito_error_rethrow_same_instance :
    ∀ (TEvent : Type) (event : TEvent) (e : ErrObj) (freshId : Nat),
      cognitoExecute event (ReqOutcome.failure (Thrown.errorVal e)) freshId =
        ⟨[startLog TEvent, cognitoErrorLog e event], [e],
          HEOutcome.throws (Thrown.errorVal e)⟩ ∧
      errorLogCount
        (cognitoExecute event (ReqOutcome.failure (Thrown.errorVal e)) freshId).logs = 1 := by
  intro TEvent event e freshId
  refine ⟨rfl, ?_⟩
  simp [cognitoExecute, execute, cognitoHandleError, errorLogCount,
    startLog, cognitoErrorLog]

/-- C2: For every invocation in which `handleRequest` fails with an
Error-kind value, `execute()` invokes `handleError` exactly once with that
exact error object, returns or escalates `handleError`'s outcome unchanged
(its logs following the start log, nothing wrapped), and — in each of the
two specializations — exactly one error log is emitted overall. -/
theorem execute_error_kind_passthrough :
    (∀ (TEvent TResult : Type)
       (he : ErrObj → List (LogEntry TEvent) × HEOutcome TResult)
       (e : ErrObj) (freshId : Nat),
       (execute (ReqOutcome.failure (Thrown.errorVal e)) he freshId).handleErrorCalls = [e] ∧
       (execute (ReqOutcome.failure (Thrown.errorVal e)) he freshId).outcome = (he e).2 ∧
       (execute (ReqOutcome.failure (Thrown.errorVal e)) he freshId).logs =
         startLog TEvent :: (he e).1) ∧
    (∀ (TEvent : Type) (event : TEvent) (e : ErrObj) (freshId : Nat),
       errorLogCount
         (cognitoExecute event (ReqOutcome.failure (Thrown.errorVal e)) freshId).logs = 1) ∧
    (∀ (TEvent : Type) (event : TEvent) (e : ErrObj) (freshId : Nat),
       errorLogCount
         (apiGatewayExecute event (ReqOutcome.failure (Thrown.errorVal e)) freshId).logs = 1) := by
  refine ⟨fun TEvent TResult he e freshId => ⟨rfl, rfl, rfl⟩, ?_, ?_⟩ <;>
    intro TEvent event e freshId <;>
    simp [cognitoExecute, apiGatewayExecute, execute, cognitoHandleError,
      apiGatewayHandleError, errorLogCount, startLog, cognitoErrorLog, classifierErrorLog]

/-- C3: For every invocation in which `handleRequest` throws a non-Error
value `v`, `execute()` logs one diagnostic carrying `v`, synthesizes a fresh
generic Error whose message is exactly "Unknown error occurred", and passes
that synthesized error to `handleError`; the thrown value appears in the
diagnostic log only — the error `handleError` receives (and, in the Cognito
specialization, the error that escalates out of `execute()`) has the fixed
message, independent of `v`, and in the Cognito trace exactly one log entry
carries `v`. -/
theorem execute_non_error_synthesizes_generic :
    (∀ (TEvent TResult : Type)
       (he : ErrObj → List (LogEntry TEvent) × HEOutcome TResult)
       (v : JSVal) (freshId : Nat),
       (execute (ReqOutcome.failure (Thrown.nonError v)) he freshId).handleErrorCalls =
         [genericError freshId] ∧
       (genericError freshId).message = "Unknown error occurred" ∧
       (execute (ReqOutcome.failure (Thrown.nonError v)) he freshId).logs =
         startLog TEvent :: unknownErrorLog TEvent v :: (he (genericError freshId)).1 ∧
       (execute (ReqOutcome.failure (Thrown.nonError v)) he freshId).outcome =
         (he (genericError freshId)).2) ∧
    (∀ (TEvent : Type) (event : TEvent) (v : JSVal) (freshId : Nat),
       (cognitoExecute event (ReqOutcome.failure (Thrown.nonError v)) freshId).outcome =
         HEOutcome.throws (Thrown.errorVal (genericError freshId)) ∧
       valueMentionCount
         (cognitoExecute event (ReqOutcome.failure (Thrown.nonError v)) freshId).logs v = 1) := by
  refine ⟨fun TEvent TResult he v freshId => ⟨rfl, rfl, rfl, rfl⟩, ?_⟩
  intro TEvent event v freshId
  refine ⟨rfl, ?_⟩
  simp [cognitoExecute, execute, cognitoHandleError, valueMentionCount,
    startLog, unknownErrorLog, cognitoErrorLog]

/-- C4 counterexample: with the Cognito specialization and a non-Error
thrown value (`"boom"`), the invocation emits one start log, zero success
logs and TWO error logs — the orchestrator's unknown-error diagnostic plus
the Cognito handler's diagnostic — refuting "exactly one log out of
{success log, error log}, never two". -/
theorem cognito_non_error_two_error_logs :
    startLogCount
      (cognitoExecute (JSVal.vstr "event")
        (ReqOutcome.failure (Thrown.nonError (JSVal.vstr "boom"))) 0).logs = 1 ∧
    successLogCount
      (cognitoExecute (JSVal.vstr "event")
        (ReqOutcome.failure (Thrown.nonError (JSVal.vstr "boom"))) 0).logs = 0 ∧
    errorLogCount
      (cognitoExecute (JSVal.vstr "event")
        (ReqOutcome.failure (Thrown.nonError (JSVal.vstr "boom"))) 0).logs = 2 := by
  refine ⟨?_, ?_, ?_⟩ <;> rfl

/-- C4 (amended): in both specializations every invocation emits exactly one
start log; a successful invocation emits exactly one success log and no
error log; an Error-kind failure emits no success log and exactly one error
log; a non-Error throw emits no success log and exactly two error logs (the
orchestrator's diagnostic plus the specialization's). -/
theorem log_discipline_amended :
    (∀ (TEvent : Type) (event : TEvent) (ro : ReqOutcome TEvent) (freshId : Nat),
       startLogCount (cognitoExecute event ro freshId).logs = 1 ∧
       successLogCount (cognitoExecute event ro freshId).logs = expectedSuccessLogs ro ∧
       errorLogCount (cognitoExecute event ro freshId).logs = expectedErrorLogs ro) ∧
    (∀ (TEvent : Type) (event : TEvent) (ro : ReqOutcome APIGatewayProxyResult)
       (freshId : Nat),
       startLogCount (apiGatewayExecute event ro freshId).logs = 1 ∧
       successLogCount (apiGatewayExecute event ro freshId).logs = expectedSuccessLogs ro ∧
       errorLogCount (apiGatewayExecute event ro freshId).logs = expectedErrorLogs ro) := by
  constructor <;> intro TEvent event ro freshId <;>
    rcases ro with r | (e | v) <;>
    refine ⟨?_, ?_, ?_⟩ <;>
    simp [cognitoExecute, apiGatewayExecute, execute, cognitoHandleError,
      apiGatewayHandleError, startLogCount, successLogCount, errorLogCount,
      countLogMsg, expectedSuccessLogs, expectedErrorLogs,
      startLog, successLog, unknownErrorLog, cognitoErrorLog, classifierErrorLog]

/-- C6: On the HTTP specialization `handleError` is total: for every error it
returns a response (`HEOutcome.returns`, never `throws`), so every
`execute()` invocation ends in a returned response; an error of a kind the
classifier does not recognize yields the fixed generic server-error
response, whose body is the constant "Internal server error" — independent
of the error, so it cannot carry the original error's message. -/
theorem api_gateway_handle_error_total :
    (∀ (TEvent : Type) (event : TEvent) (e : ErrObj),
       (apiGatewayHandleError event e).2 = HEOutcome.returns (classifyError e)) ∧
    (∀ (TEvent : Type) (event : TEvent) (ro : ReqOutcome APIGatewayProxyResult)
       (freshId : Nat),
       ∃ r, (apiGatewayExecute event ro freshId).outcome = HEOutcome.returns r) ∧
    (∀ e : ErrObj, e.kind = ErrKind.plain →
       classifyError e = genericServerErrorResponse) ∧
    genericServerErrorResponse.body = "Internal server error" := by
  refine ⟨fun TEvent event e => rfl, ?_, ?_, rfl⟩
  · intro TEvent event ro freshId
    rcases ro with r | (e | v)
    · exact ⟨r, rfl⟩
    · exact ⟨classifyError e, rfl⟩
    · exact ⟨classifyError (genericError freshId), rfl⟩
  · intro e h
    simp [classifyError, h]

/-- C6 witness: at the unrecognized-kind error with message
"secret internal detail", the classifier yields the fixed generic
server-error response. -/
theorem api_gateway_handle_error_total_witness :
    (ErrObj.mk 7 ErrKind.plain "secret internal detail").kind = ErrKind.plain ∧
    classifyError ⟨7, ErrKind.plain, "secret internal detail"⟩ =
      genericServerErrorResponse :=
  ⟨rfl, api_gateway_handle_error_total.2.2.1
    ⟨7, ErrKind.plain, "secret internal detail"⟩ rfl⟩

/-- C7: `parseSchema()` builds a derived view of the event whose body is the
mapping produced by `parseJSONBody` when a (truthy) body is present and the
empty mapping when no body is present, preserves every other field of the
event in that view, and delegates to the Schema Validator with the
instance's bound schema and that view, returning the validator's outcome
(the validated value, or a failure); the original event, being an input of
this pure function, is left unchanged. -/
theorem parse_schema_derived_view :
    ∀ (Schema T : Type)
      (pjb : String → Headers → Except ErrObj RecordVal)
      (zodParser : Schema → APIGatewayParsedEvent → Except ErrObj T)
      (schema : Schema) (event : APIGatewayProxyEvent),
      (∀ s : String, event.body = some s → s ≠ "" →
         parseSchema pjb zodParser schema event =
           Except.bind (pjb s event.headers)
             (fun m => zodParser schema ⟨m, event.headers, event.rest⟩)) ∧
      (event.body = none →
         parseSchema pjb zodParser schema event =
           zodParser schema ⟨[], event.headers, event.rest⟩) := by
  intro Schema T pjb zodParser schema event
  constructor
  · intro s hs hne
    simp [parseSchema, bodyOrEmpty, hs, hne]
  · intro h
    simp [parseSchema, bodyOrEmpty, h, Except.bind]

/-- C7 witness: with body `"x"`, a parser mediator producing the mapping
`[("a", 1)]` and a validator that returns the view's body, `parseSchema`
returns that mapping. -/
theorem parse_schema_derived_view_witness :
    parseSchema (fun _ _ => Except.ok [("a", JSVal.vnum 1)])
      (fun (_ : Unit) ev => Except.ok ev.body) () ⟨some "x", [], JSVal.vnull⟩ =
      Except.ok [("a", JSVal.vnum 1)] := by
  have h := (parse_schema_derived_view Unit RecordVal
    (fun _ _ => Except.ok [("a", JSVal.vnum 1)])
    (fun _ ev => Except.ok ev.body) () ⟨some "x", [], JSVal.vnull⟩).1 "x" rfl (by decide)
  exact h.trans rfl

/-- C8: for every actor (whatever roles the actor holds), `checkAccess` with
the empty role requirement fails with an AuthorizationError. -/
theorem check_access_empty_roles_fails :
    ∀ actorRoles : List AuthRole,
      checkAccess actorRoles [] =
        Except.error ⟨0, ErrKind.authorization, "Access denied"⟩ ∧
      ∃ e : ErrObj, checkAccess actorRoles [] = Except.error e ∧
        e.kind = ErrKind.authorization := by
  intro actorRoles
  exact ⟨rfl, ⟨0, ErrKind.authorization, "Access denied"⟩, rfl, rfl⟩

/-- C9: `formatResponse` is a pure, deterministic function — two calls with
identical input produce identical output. -/
theorem format_response_deterministic (i j : ResponseInput) (h : i = j) :
    formatResponse i = formatResponse j := by
  rw [h]

/-- C9 witness: two calls at the same concrete input agree. -/
theorem format_response_deterministic_witness :
    formatResponse ⟨200, "ok", []⟩ = formatResponse ⟨200, "ok", []⟩ :=
  format_response_deterministic ⟨200, "ok", []⟩ ⟨200, "ok", []⟩ rfl

/-- C10: a present-but-empty body (`""`) is falsy, so `parseSchema()` takes
the empty-mapping branch exactly as for an absent (`null`) body: the
validator receives the empty mapping, the result does not depend on the
`parseJSONBody` mediator at all (it is never invoked), and the outcome
coincides with the `null`-body outcome. -/
theorem parse_schema_empty_string_body :
    ∀ (Schema T : Type)
      (pjb pjb2 : String → Headers → Except ErrObj RecordVal)
      (zodParser : Schema → APIGatewayParsedEvent → Except ErrObj T)
      (schema : Schema) (headers : Headers) (rest : JSVal),
      parseSchema pjb zodParser schema ⟨some "", headers, rest⟩ =
        zodParser schema ⟨[], headers, rest⟩ ∧
      parseSchema pjb zodParser schema ⟨some "", headers, rest⟩ =
        parseSchema pjb2 zodParser schema ⟨some "", headers, rest⟩ ∧
      parseSchema pjb zodParser schema ⟨some "", headers, rest⟩ =
        parseSchema pjb zodParser schema ⟨none, headers, rest⟩ := by
  intro Schema T pjb pjb2 zodParser schema headers rest
  refine ⟨?_, ?_, ?_⟩ <;> simp [parseSchema, bodyOrEmpty, Except.bind]

end Vitkuz
